import Mathlib

/-!
Shallow embedding of the `ChatInterface` React component
(`src/components/UI.tsx`) of the ai-chatbot-frontend repository.

The component state (`useState` hooks) becomes an explicit `ChatState`
record.  The async `sendMessage` handler is split at its `await` point into
`sendMessageStart` (the synchronous prefix: guard, user-message append,
request issue) and `settleRequest` (the continuation run when the fetch
settles).  `setMessages(prev => [...prev, m])` is a functional update, so
the continuation appends to whatever the message list is at settlement
time; the split models exactly that.
-/

/-- A JavaScript runtime value as far as the component observes one: the
result of `response.json()` and the values stored in message fields.
`undefined` is JavaScript `undefined` (not producible by JSON parsing, but
producible by property access on an object lacking the field). -/
inductive JsValue : Type where
  | undefined : JsValue
  | jsNull : JsValue
  | bool (b : Bool) : JsValue
  | num (n : Int) : JsValue
  | str (s : String) : JsValue
  | arr (elems : List JsValue) : JsValue
  | obj (fields : List (String × JsValue)) : JsValue

/-- JavaScript property access `v[k]` as used in `data.response`: it throws
a TypeError on `undefined` and on `null` (the error branch carries a model
of the platform message), yields the field value on objects (`undefined`
when the field is absent), and `undefined` on every other value. -/
def jsGetField : JsValue → String → Except String JsValue
  | .undefined, _ => .error "TypeError: Cannot read properties of undefined"
  | .jsNull, _ => .error "TypeError: Cannot read properties of null"
  | .obj fields, k => .ok ((fields.lookup k).getD .undefined)
  | .bool _, _ => .ok .undefined
  | .num _, _ => .ok .undefined
  | .str _, _ => .ok .undefined
  | .arr _, _ => .ok .undefined

/-- The `Message` interface of `UI.tsx`.  `id` is a string (built with
`Date.now().toString()`); `text` is declared `string` in the source but at
runtime holds whatever `data.response` was, so it is embedded as `JsValue`;
`timestamp` is the client clock reading (milliseconds) behind `new Date()`. -/
structure Message where
  id : String
  text : JsValue
  isUser : Bool
  timestamp : Nat

/-- The four `useState` hooks of the component that `sendMessage` and
`clearChat` touch: `messages`, `inputMessage`, `isLoading`, `error`.
(The render-only `isClient` flag and the scroll ref carry no
conversation state.) -/
structure ChatState where
  messages : List Message
  inputMessage : String
  isLoading : Bool
  error : Option String

/-- JavaScript `String.prototype.trim()`: the string with leading and
trailing whitespace removed. -/
def jsTrim (s : String) : String :=
  String.mk (((s.data.dropWhile Char.isWhitespace).reverse.dropWhile
    Char.isWhitespace).reverse)

/-- The fallback in `process.env.NEXT_PUBLIC_API_URL || 'http://127.0.0.1:8000'`. -/
def defaultApiUrl : String := "http://127.0.0.1:8000"

/-- `process.env.NEXT_PUBLIC_API_URL || defaultApiUrl`.  The configured
value is `none` when the variable is unset; JavaScript `||` also falls
through on the empty string, which is falsy. -/
def resolveApiUrl (cfg : Option String) : String :=
  match cfg with
  | none => defaultApiUrl
  | some s => if s = "" then defaultApiUrl else s

/-- The call `API_URL.replace(/\/$/, '')`: the pattern matches a single
slash at the end of the string, so the replacement removes the final
character exactly when that character is a slash. -/
def stripTrailingSlash (s : String) : String :=
  match s.data.getLast? with
  | some c => if c = '/' then String.mk s.data.dropLast else s
  | none => s

/-- The `getApiUrl` helper of `UI.tsx`, with the environment read of
`API_URL` made an explicit `cfg` argument. -/
def getApiUrl (cfg : Option String) : String :=
  stripTrailingSlash (resolveApiUrl cfg) ++ "/chat"

/-- The fixed apology text of the synthetic error message. -/
def apologyText : String := "Sorry, I encountered an error. Please try again."

/-- The banner text set in the catch block:
`setError('Failed to send message: ' + (err.message || 'Check console'))`.
An empty `msg` models a falsy `err.message`. -/
def mkErrorBanner (msg : String) : String :=
  "Failed to send message: " ++ (if msg = "" then "Check console" else msg)

/-- Outcome of `response.json()`: either the promise rejects (invalid JSON
body, message `msg`) or it resolves to a parsed value. -/
inductive BodyResult : Type where
  | parseFail (msg : String) : BodyResult
  | parsed (v : JsValue) : BodyResult

/-- Outcome of the `fetch` call: either the promise rejects (network
error with message `msg`), or a response arrives with a status code and
a body. -/
inductive FetchResult : Type where
  | networkError (msg : String) : FetchResult
  | response (status : Nat) (body : BodyResult) : FetchResult

/-- `response.ok`: status in the inclusive range 200–299. -/
def respOk (status : Nat) : Bool := 200 ≤ status && status < 300

/-- The outbound HTTP request issued by `sendMessage`: POST `url` with
body `JSON.stringify(\x7b message: inputMessage \x7d)`. -/
structure PendingFetch where
  url : String
  body : JsValue

/-- The synchronous prefix of `sendMessage`, given the clock reading `now`
(`Date.now()`):
guard `if (!inputMessage.trim() || isLoading) return;`, then append the
user message `\x7b id: Date.now().toString(), text: inputMessage, isUser:
true, timestamp: new Date() \x7d`, clear the input, set `isLoading`, clear
`error`, and issue the fetch with body `\x7b message: inputMessage \x7d`
(the closure variable `inputMessage`, untrimmed). -/
def sendMessageStart (cfg : Option String) (s : ChatState) (now : Nat) :
    ChatState × Option PendingFetch :=
  if jsTrim s.inputMessage = "" ∨ s.isLoading = true then (s, none)
  else
    ({ messages := s.messages ++
         [{ id := toString now, text := .str s.inputMessage, isUser := true,
            timestamp := now }],
       inputMessage := "",
       isLoading := true,
       error := none },
     some { url := getApiUrl cfg,
            body := .obj [("message", .str s.inputMessage)] })

/-- The catch block of `sendMessage`, run at clock reading `now`: set the
error banner and append the synthetic assistant message
`\x7b id: (Date.now() + 1).toString(), text: apologyText, isUser: false,
timestamp: new Date() \x7d`; the finally block then resets `isLoading`. -/
def settleFailure (s : ChatState) (msg : String) (now : Nat) : ChatState :=
  { s with
    error := some (mkErrorBanner msg),
    messages := s.messages ++
      [{ id := toString (now + 1), text := .str apologyText, isUser := false,
         timestamp := now }],
    isLoading := false }

/-- The continuation of `sendMessage` after `await fetch`, run against the
state current at settlement time (clock reading `now`): non-ok status
throws `HTTP error! status: ...`; then `response.json()` may throw; then
`data.response` may throw (null or undefined `data`); otherwise the bot
message is appended with `text: data.response`.  Every throw lands in the
catch block (`settleFailure`); the finally block resets `isLoading`. -/
def settleRequest (s : ChatState) (r : FetchResult) (now : Nat) : ChatState :=
  match r with
  | .networkError msg => settleFailure s msg now
  | .response status body =>
    if respOk status then
      match body with
      | .parseFail msg => settleFailure s msg now
      | .parsed v =>
        match jsGetField v "response" with
        | .error msg => settleFailure s msg now
        | .ok reply =>
          { s with
            messages := s.messages ++
              [{ id := toString (now + 1), text := reply, isUser := false,
                 timestamp := now }],
            isLoading := false }
    else
      settleFailure s ("HTTP error! status: " ++ toString status) now

/-- Whether a fetch outcome takes the catch path of `sendMessage`:
a network error, a non-2xx status, an unparseable body, or a parsed body
on which `data.response` throws (JSON null). -/
def FetchResult.isHandledFailure : FetchResult → Bool
  | .networkError _ => true
  | .response status body =>
    if respOk status then
      match body with
      | .parseFail _ => true
      | .parsed v =>
        match jsGetField v "response" with
        | .error _ => true
        | .ok _ => false
    else true

/-- The `clearChat` handler: `setMessages([]); setError(null);`. -/
def clearChat (s : ChatState) : ChatState :=
  { s with messages := [], error := none }

/-- The initial component state: all hooks at their `useState` defaults. -/
def chatInit : ChatState :=
  { messages := [], inputMessage := "", isLoading := false, error := none }

/-- A UI event, each carrying the clock reading at which it happens:
typing into the input, pressing submit, a fetch settling, or pressing
Clear Chat. -/
inductive Event : Type where
  | typeInput (now : Nat) (text : String) : Event
  | submit (now : Nat) : Event
  | settle (now : Nat) (r : FetchResult) : Event
  | clearClick (now : Nat) : Event

/-- The clock reading at which an event happens. -/
def Event.time : Event → Nat
  | .typeInput now _ => now
  | .submit now => now
  | .settle now _ => now
  | .clearClick now => now

/-- One event against the component state.  (The fetch issued by a submit
is routed outside the state; a `settle` event delivers its outcome.) -/
def stepEvent (cfg : Option String) (s : ChatState) : Event → ChatState
  | .typeInput _ t => { s with inputMessage := t }
  | .submit now => (sendMessageStart cfg s now).1
  | .settle now r => settleRequest s r now
  | .clearClick _ => clearChat s

/-- A session: a sequence of events from a given state. -/
def runEvents (cfg : Option String) (s : ChatState) (es : List Event) : ChatState :=
  es.foldl (stepEvent cfg) s

/-! ### Helper lemmas -/

/-- Whatever the fetch outcome, the settlement continuation appends exactly
one assistant-side message, whose id is built from the settlement clock
reading plus one. -/
theorem settleRequest_messages_eq (s : ChatState) (r : FetchResult) (now : Nat) :
    ∃ m : Message, m.id = toString (now + 1) ∧ m.isUser = false ∧
      (settleRequest s r now).messages = s.messages ++ [m] := by
  cases r with
  | networkError msg =>
    exact ⟨{ id := toString (now + 1), text := .str apologyText, isUser := false,
             timestamp := now }, rfl, rfl, rfl⟩
  | response status body =>
    by_cases h : respOk status = true
    · cases body with
      | parseFail msg =>
        refine ⟨{ id := toString (now + 1), text := .str apologyText,
                  isUser := false, timestamp := now }, rfl, rfl, ?_⟩
        simp [settleRequest, h, settleFailure]
      | parsed v =>
        cases hF : jsGetField v "response" with
        | error msg =>
          refine ⟨{ id := toString (now + 1), text := .str apologyText,
                    isUser := false, timestamp := now }, rfl, rfl, ?_⟩
          simp [settleRequest, h, hF, settleFailure]
        | ok reply =>
          refine ⟨{ id := toString (now + 1), text := reply, isUser := false,
                    timestamp := now }, rfl, rfl, ?_⟩
          simp [settleRequest, h, hF]
    · refine ⟨{ id := toString (now + 1), text := .str apologyText,
                isUser := false, timestamp := now }, rfl, rfl, ?_⟩
      simp [settleRequest, h, settleFailure]

/-- The synchronous prefix of a submit either leaves the message list
unchanged (guard hit) or appends exactly one user message, whose id is
built from the submit clock reading. -/
theorem sendMessageStart_messages_eq (cfg : Option String) (s : ChatState) (now : Nat) :
    (sendMessageStart cfg s now).1.messages = s.messages ∨
      ∃ m : Message, m.id = toString now ∧ m.isUser = true ∧
        (sendMessageStart cfg s now).1.messages = s.messages ++ [m] := by
  by_cases h : jsTrim s.inputMessage = "" ∨ s.isLoading = true
  · left; simp [sendMessageStart, h]
  · right
    refine ⟨{ id := toString now, text := .str s.inputMessage, isUser := true,
              timestamp := now }, rfl, rfl, ?_⟩
    simp [sendMessageStart, h]

/-! ### Claim theorems -/

/-- C3: if the input text is empty after trimming, or a request is already
pending, `sendMessage` is a no-op: the state is returned unchanged and no
fetch is issued. -/
theorem submit_noop_when_empty_or_pending (cfg : Option String) (s : ChatState)
    (now : Nat) (h : jsTrim s.inputMessage = "" ∨ s.isLoading = true) :
    sendMessageStart cfg s now = (s, none) := by
  simp [sendMessageStart, h]

/-- Witness for C3: submitting while a request for "A" is in flight leaves
the state (with "B" typed in the input) untouched and sends nothing. -/
theorem submit_noop_when_empty_or_pending_witness :
    sendMessageStart none
        { messages := [], inputMessage := "B", isLoading := true, error := none } 5 =
      ({ messages := [], inputMessage := "B", isLoading := true, error := none }, none) :=
  submit_noop_when_empty_or_pending none
    { messages := [], inputMessage := "B", isLoading := true, error := none } 5
    (Or.inr rfl)

/-- C10: `clearChat` empties the message list and clears the error banner,
and changes nothing else: the loading flag and the input field content are
left as they were. -/
theorem clearChat_frame (s : ChatState) :
    (clearChat s).messages = [] ∧ (clearChat s).error = none ∧
      (clearChat s).isLoading = s.isLoading ∧
      (clearChat s).inputMessage = s.inputMessage :=
  ⟨rfl, rfl, rfl, rfl⟩

/-- C6: `clearChat` empties the message list and clears the error banner
from any prior state; it does not cancel an in-flight request, and a fetch
settling after the clear appends its single assistant-side message to the
now-empty list. -/
theorem clearChat_spec (s : ChatState) (r : FetchResult) (now : Nat) :
    (clearChat s).messages = [] ∧ (clearChat s).error = none ∧
      ∃ m : Message, m.isUser = false ∧
        (settleRequest (clearChat s) r now).messages = [m] := by
  refine ⟨rfl, rfl, ?_⟩
  obtain ⟨m, _, hUser, hm⟩ := settleRequest_messages_eq (clearChat s) r now
  exact ⟨m, hUser, by simpa [clearChat] using hm⟩

/-- C7: every transition of the message list — typing, submitting, a fetch
settling, clearing — either appends messages at the end or resets the list
to empty; existing entries are never reordered, edited or removed
individually. -/
theorem messages_append_only_or_cleared (cfg : Option String) (s : ChatState)
    (e : Event) :
    (∃ t, (stepEvent cfg s e).messages = s.messages ++ t) ∨
      (stepEvent cfg s e).messages = [] := by
  cases e with
  | typeInput now t => exact Or.inl ⟨[], by simp [stepEvent]⟩
  | submit now =>
    left
    rcases sendMessageStart_messages_eq cfg s now with h | ⟨m, _, _, h⟩
    · exact ⟨[], by simpa [stepEvent] using h⟩
    · exact ⟨[m], by simpa [stepEvent] using h⟩
  | settle now r =>
    left
    obtain ⟨m, _, _, hm⟩ := settleRequest_messages_eq s r now
    exact ⟨[m], by simpa [stepEvent] using hm⟩
  | clearClick now => exact Or.inr rfl

/-- A string prepended with a non-empty string is non-empty. -/
theorem append_ne_empty_left (a b : String) (h : a ≠ "") : a ++ b ≠ "" := by
  intro hab
  have hd := congrArg String.data hab
  rw [String.data_append] at hd
  exact h (String.ext (List.append_eq_nil.mp hd).1)

/-- The error banner built by the catch block is never the empty string. -/
theorem mkErrorBanner_ne_empty (msg : String) : mkErrorBanner msg ≠ "" := by
  unfold mkErrorBanner
  exact append_ne_empty_left _ _ (by decide)

/-- C1: from an idle state with input non-empty after trimming, a fetch
settling with a 2xx status and a JSON body whose `response` field is a
string leaves exactly two new messages at the end of the transcript — the
user message with the submitted text, then the assistant message with the
payload's `response` string — with the loading flag false and no error. -/
theorem success_appends_user_then_assistant
    (cfg : Option String) (s : ChatState) (t1 t2 status : Nat)
    (v : JsValue) (rtext : String)
    (hIdle : s.isLoading = false)
    (hNE : jsTrim s.inputMessage ≠ "")
    (hOk : respOk status = true)
    (hField : jsGetField v "response" = .ok (.str rtext)) :
    settleRequest (sendMessageStart cfg s t1).1 (.response status (.parsed v)) t2 =
      { messages := s.messages ++
          [{ id := toString t1, text := .str s.inputMessage, isUser := true,
             timestamp := t1 },
           { id := toString (t2 + 1), text := .str rtext, isUser := false,
             timestamp := t2 }],
        inputMessage := "",
        isLoading := false,
        error := none } := by
  simp [sendMessageStart, hIdle, hNE, settleRequest, hOk, hField]

/-- Witness for C1: the spec scenario — input "Hello", endpoint answers
200 with body carrying response "Hi there!". -/
theorem success_appends_user_then_assistant_witness :
    settleRequest (sendMessageStart none
        { messages := [], inputMessage := "Hello", isLoading := false,
          error := none } 100).1
        (.response 200 (.parsed (.obj [("response", .str "Hi there!")]))) 200 =
      { messages :=
          [{ id := "100", text := .str "Hello", isUser := true, timestamp := 100 },
           { id := "201", text := .str "Hi there!", isUser := false,
             timestamp := 200 }],
        inputMessage := "", isLoading := false, error := none } := by
  have h := success_appends_user_then_assistant none
      { messages := [], inputMessage := "Hello", isLoading := false, error := none }
      100 200 200 (.obj [("response", .str "Hi there!")]) "Hi there!"
      rfl (by decide) rfl rfl
  simpa using h

/-- C5 counterexample: submitting the input " Hello " (non-empty after
trimming) issues a request whose body field carries the raw text
" Hello ", not the trimmed "Hello" the claim demands. -/
theorem request_body_not_trimmed :
    (sendMessageStart none
        { messages := [], inputMessage := " Hello ", isLoading := false,
          error := none } 7).2 =
      some { url := "http://127.0.0.1:8000/chat",
             body := .obj [("message", .str " Hello ")] } ∧
    jsTrim " Hello " = "Hello" ∧ (" Hello " : String) ≠ "Hello" :=
  ⟨rfl, by decide, by decide⟩

/-- C5 amended: the request body is a JSON object with the single field
`message`, whose value is the input text exactly as entered — untrimmed
(even though the guard applies trimming to decide whether to send). -/
theorem request_body_is_raw_input (cfg : Option String) (s : ChatState)
    (now : Nat) (hIdle : s.isLoading = false)
    (hNE : jsTrim s.inputMessage ≠ "") :
    (sendMessageStart cfg s now).2 =
      some { url := getApiUrl cfg,
             body := .obj [("message", .str s.inputMessage)] } := by
  simp [sendMessageStart, hIdle, hNE]

/-- Witness for the amended C5 at input "Hello" with no configured URL. -/
theorem request_body_is_raw_input_witness :
    (sendMessageStart none
        { messages := [], inputMessage := "Hello", isLoading := false,
          error := none } 3).2 =
      some { url := "http://127.0.0.1:8000/chat",
             body := .obj [("message", .str "Hello")] } := by
  have h := request_body_is_raw_input none
      { messages := [], inputMessage := "Hello", isLoading := false, error := none }
      3 rfl (by decide)
  simpa using h

/-- On every fetch outcome that takes the catch path, the settlement is a
`settleFailure` with some diagnostic `msg`; when the outcome is a non-ok
HTTP status, `msg` is the thrown `HTTP error! status: ...` text. -/
theorem settleRequest_failure_eq (s : ChatState) (r : FetchResult) (now : Nat)
    (hFail : r.isHandledFailure = true) :
    ∃ msg, settleRequest s r now = settleFailure s msg now ∧
      ∀ status body, r = .response status body → respOk status = false →
        msg = "HTTP error! status: " ++ toString status := by
  cases r with
  | networkError m =>
    exact ⟨m, rfl, by intro status body h; cases h⟩
  | response status body =>
    by_cases h : respOk status = true
    · cases body with
      | parseFail m =>
        refine ⟨m, by simp [settleRequest, h], ?_⟩
        intro status' body' heq hok
        injection heq with h1 _
        subst h1
        rw [h] at hok
        cases hok
      | parsed v =>
        cases hF : jsGetField v "response" with
        | error m =>
          refine ⟨m, by simp [settleRequest, h, hF], ?_⟩
          intro status' body' heq hok
          injection heq with h1 _
          subst h1
          rw [h] at hok
          cases hok
        | ok reply =>
          exfalso
          simp [FetchResult.isHandledFailure, h, hF] at hFail
    · refine ⟨"HTTP error! status: " ++ toString status,
        by simp [settleRequest, h], ?_⟩
      intro status' body' heq _
      injection heq with h1 _
      subst h1
      rfl

/-- C2 counterexample: input "Hello", endpoint answers 200 with the valid
JSON object containing only a `reply` field — malformed by the spec
(no `response` field), yet the code appends a normal assistant message
with `undefined` text (not the apology) and sets no error banner. -/
theorem malformed_success_not_failure :
    (settleRequest (sendMessageStart none
        { messages := [], inputMessage := "Hello", isLoading := false,
          error := none } 100).1
        (.response 200 (.parsed (.obj [("reply", .str "Hi")]))) 200).error = none ∧
    (settleRequest (sendMessageStart none
        { messages := [], inputMessage := "Hello", isLoading := false,
          error := none } 100).1
        (.response 200 (.parsed (.obj [("reply", .str "Hi")]))) 200).messages.map
        Message.text = [.str "Hello", .undefined] ∧
    JsValue.undefined ≠ JsValue.str apologyText :=
  ⟨rfl, rfl, fun h => JsValue.noConfusion h⟩

/-- C2 amended: for every idle state and input non-empty after trimming,
if the fetch outcome takes the catch path (network error, non-2xx status,
unparseable body, or JSON-null body), exactly one user message and one
apology assistant message are appended, the error banner is a non-empty
string containing the status code when the failure is a non-2xx status,
and the loading flag ends false. -/
theorem failure_appends_user_then_apology (cfg : Option String) (s : ChatState)
    (r : FetchResult) (t1 t2 : Nat)
    (hIdle : s.isLoading = false) (hNE : jsTrim s.inputMessage ≠ "")
    (hFail : r.isHandledFailure = true) :
    (settleRequest (sendMessageStart cfg s t1).1 r t2).messages =
        s.messages ++
          [{ id := toString t1, text := .str s.inputMessage, isUser := true,
             timestamp := t1 },
           { id := toString (t2 + 1), text := .str apologyText, isUser := false,
             timestamp := t2 }] ∧
    (settleRequest (sendMessageStart cfg s t1).1 r t2).isLoading = false ∧
    ∃ es, (settleRequest (sendMessageStart cfg s t1).1 r t2).error = some es ∧
      es ≠ "" ∧
      ∀ status body, r = .response status body → respOk status = false →
        ∃ a b, es = a ++ toString status ++ b := by
  obtain ⟨msg, hEq, hStatus⟩ :=
    settleRequest_failure_eq (sendMessageStart cfg s t1).1 r t2 hFail
  rw [hEq]
  refine ⟨?_, rfl, ?_⟩
  · simp [settleFailure, sendMessageStart, hIdle, hNE]
  · refine ⟨mkErrorBanner msg, rfl, mkErrorBanner_ne_empty msg, ?_⟩
    intro status body heq hok
    have hm := hStatus status body heq hok
    subst hm
    have hne : "HTTP error! status: " ++ toString status ≠ "" :=
      append_ne_empty_left _ _ (by decide)
    refine ⟨"Failed to send message: " ++ "HTTP error! status: ", "", ?_⟩
    rw [String.append_empty, String.append_assoc]
    unfold mkErrorBanner
    rw [if_neg hne]

/-- Witness for the amended C2: the spec scenario — input "Hello",
endpoint answers HTTP 500. -/
theorem failure_appends_user_then_apology_witness :
    (settleRequest (sendMessageStart none
        { messages := [], inputMessage := "Hello", isLoading := false,
          error := none } 100).1
        (.response 500 (.parsed (.obj []))) 200).messages =
      [{ id := "100", text := .str "Hello", isUser := true, timestamp := 100 },
       { id := "201", text := .str apologyText, isUser := false,
         timestamp := 200 }] ∧
    (settleRequest (sendMessageStart none
        { messages := [], inputMessage := "Hello", isLoading := false,
          error := none } 100).1
        (.response 500 (.parsed (.obj []))) 200).isLoading = false ∧
    (settleRequest (sendMessageStart none
        { messages := [], inputMessage := "Hello", isLoading := false,
          error := none } 100).1
        (.response 500 (.parsed (.obj []))) 200).error =
      some "Failed to send message: HTTP error! status: 500" := by
  have h := failure_appends_user_then_apology none
      { messages := [], inputMessage := "Hello", isLoading := false, error := none }
      (.response 500 (.parsed (.obj []))) 100 200 rfl (by decide) rfl
  exact ⟨by simpa using h.1, h.2.1, rfl⟩

/-- C4 counterexample: a 200 response whose body is the valid JSON object
without any `response` field is not handled as a failure: no error is set
and the appended assistant message has `undefined` text, not the apology. -/
theorem missing_field_not_failure :
    (settleRequest (sendMessageStart none
        { messages := [], inputMessage := "Hi", isLoading := false,
          error := none } 10).1
        (.response 200 (.parsed (.obj []))) 20).error = none ∧
    (settleRequest (sendMessageStart none
        { messages := [], inputMessage := "Hi", isLoading := false,
          error := none } 10).1
        (.response 200 (.parsed (.obj []))) 20).messages.map Message.text =
      [.str "Hi", .undefined] ∧
    JsValue.undefined ≠ JsValue.str apologyText :=
  ⟨rfl, rfl, fun h => JsValue.noConfusion h⟩

/-- C4 amended: among 2xx responses, only an unparseable body or a body on
which the `response` field access throws (JSON null) is handled as a
failure (error banner set, apology appended); every other body — any JSON
value, the field present or not, of any shape — yields a normal assistant
message whose text is whatever the field access returned (possibly
`undefined`), with no error set. -/
theorem ok_response_malformed_handling (cfg : Option String) (s : ChatState)
    (status t1 t2 : Nat) (body : BodyResult)
    (hIdle : s.isLoading = false) (hNE : jsTrim s.inputMessage ≠ "")
    (hOk : respOk status = true) :
    (∀ msg, body = .parseFail msg →
      (settleRequest (sendMessageStart cfg s t1).1 (.response status body) t2).error =
          some (mkErrorBanner msg) ∧
      (settleRequest (sendMessageStart cfg s t1).1 (.response status body) t2).messages.map
          Message.text =
        s.messages.map Message.text ++ [.str s.inputMessage, .str apologyText]) ∧
    (∀ v msg, body = .parsed v → jsGetField v "response" = .error msg →
      (settleRequest (sendMessageStart cfg s t1).1 (.response status body) t2).error =
          some (mkErrorBanner msg) ∧
      (settleRequest (sendMessageStart cfg s t1).1 (.response status body) t2).messages.map
          Message.text =
        s.messages.map Message.text ++ [.str s.inputMessage, .str apologyText]) ∧
    (∀ v reply, body = .parsed v → jsGetField v "response" = .ok reply →
      (settleRequest (sendMessageStart cfg s t1).1 (.response status body) t2).error =
          none ∧
      (settleRequest (sendMessageStart cfg s t1).1 (.response status body) t2).messages.map
          Message.text =
        s.messages.map Message.text ++ [.str s.inputMessage, reply]) := by
  refine ⟨?_, ?_, ?_⟩
  · intro msg heq
    subst heq
    constructor <;>
      simp [settleRequest, hOk, settleFailure, sendMessageStart, hIdle, hNE]
  · intro v msg heq hF
    subst heq
    constructor <;>
      simp [settleRequest, hOk, hF, settleFailure, sendMessageStart, hIdle, hNE]
  · intro v reply heq hF
    subst heq
    constructor <;>
      simp [settleRequest, hOk, hF, sendMessageStart, hIdle, hNE]

/-- Witness for the amended C4: a 204 response with the field present is
a success; its text reaches the assistant message and no error is set. -/
theorem ok_response_malformed_handling_witness :
    (settleRequest (sendMessageStart none
        { messages := [], inputMessage := "Q", isLoading := false,
          error := none } 1).1
        (.response 204 (.parsed (.obj [("response", .str "A")]))) 3).error = none ∧
    (settleRequest (sendMessageStart none
        { messages := [], inputMessage := "Q", isLoading := false,
          error := none } 1).1
        (.response 204 (.parsed (.obj [("response", .str "A")]))) 3).messages.map
        Message.text = [.str "Q", .str "A"] := by
  have h := (ok_response_malformed_handling none
      { messages := [], inputMessage := "Q", isLoading := false, error := none }
      204 1 3 (.parsed (.obj [("response", .str "A")]))
      rfl (by decide) rfl).2.2 (.obj [("response", .str "A")]) (.str "A") rfl rfl
  exact ⟨h.1, by simpa using h.2⟩

/-- Spec-side rendering of the C9 endpoint description: the base URL with
exactly one trailing slash (when present) removed, followed by the fixed
suffix "/chat". -/
def specChatEndpoint (B : String) : String :=
  (if B.data.getLast? = some '/' then String.mk B.data.dropLast else B) ++ "/chat"

/-- The code-side one-slash strip agrees with the spec-side conditional. -/
theorem stripTrailingSlash_eq_spec (B : String) :
    stripTrailingSlash B =
      if B.data.getLast? = some '/' then String.mk B.data.dropLast else B := by
  unfold stripTrailingSlash
  cases hL : B.data.getLast? with
  | none => simp [hL]
  | some c =>
    by_cases hc : c = '/'
    · subst hc; simp [hL]
    · simp [hL, hc]

/-- C9 counterexample: the empty string is falsy in JavaScript, so a base
URL configured as "" falls back to the default; the endpoint is then the
default-based URL, not the "/chat" the claim computes from B = "". -/
theorem empty_base_url_uses_default :
    getApiUrl (some "") = defaultApiUrl ++ "/chat" ∧
    specChatEndpoint "" = "/chat" ∧
    getApiUrl (some "") ≠ specChatEndpoint "" :=
  ⟨rfl, rfl, by decide⟩

/-- C9 amended: for every non-empty configured base URL B the endpoint is
B with exactly one trailing slash (if present) removed followed by
"/chat"; a base URL not ending in a slash and the same URL with one
appended yield identical endpoints; an unset (or empty, which JavaScript
treats as unset) configuration uses the default http://127.0.0.1:8000. -/
theorem getApiUrl_spec :
    (∀ B : String, B ≠ "" → getApiUrl (some B) = specChatEndpoint B) ∧
    (∀ B : String, B ≠ "" → B.data.getLast? ≠ some '/' →
      getApiUrl (some (B ++ "/")) = getApiUrl (some B)) ∧
    getApiUrl none = defaultApiUrl ++ "/chat" ∧
    defaultApiUrl = "http://127.0.0.1:8000" := by
  refine ⟨?_, ?_, rfl, rfl⟩
  · intro B hB
    unfold getApiUrl specChatEndpoint
    rw [show resolveApiUrl (some B) = B from by simp [resolveApiUrl, hB],
      stripTrailingSlash_eq_spec]
  · intro B hB hSlash
    have hne : B ++ "/" ≠ "" := by
      intro h
      have hd := congrArg String.data h
      rw [String.data_append] at hd
      simp at hd
    unfold getApiUrl
    rw [show resolveApiUrl (some (B ++ "/")) = B ++ "/" from by
        simp [resolveApiUrl, hne],
      show resolveApiUrl (some B) = B from by simp [resolveApiUrl, hB],
      stripTrailingSlash_eq_spec, stripTrailingSlash_eq_spec]
    have hdata : (B ++ "/").data = B.data ++ ['/'] := by
      rw [String.data_append]
    rw [hdata]
    rw [if_pos (List.getLast?_concat B.data), if_neg hSlash]
    rw [List.dropLast_concat]

/-- Witness for the amended C9: a concrete base URL with and without a
trailing slash, both yielding the same endpoint. -/
theorem getApiUrl_spec_witness :
    getApiUrl (some "http://api.example.com/") = "http://api.example.com/chat" ∧
    getApiUrl (some "http://api.example.com/") =
      getApiUrl (some "http://api.example.com") := by
  constructor
  · have h := getApiUrl_spec.1 "http://api.example.com/" (by decide)
    exact h.trans rfl
  · exact getApiUrl_spec.2.1 "http://api.example.com" (by decide) (by decide)

/-! ### Decimal representations of distinct numbers are distinct

Message ids are `Date.now().toString()` values; deciding whether two ids
can collide needs injectivity of the decimal printer `Nat.repr`, proved
here through an explicit decoder. -/

/-- Numeric value of a decimal digit character. -/
def charToDigit (c : Char) : Nat := c.toNat - '0'.toNat

/-- Decode a decimal digit string (most significant first). -/
def digitsVal (ds : List Char) : Nat :=
  ds.foldl (fun a c => a * 10 + charToDigit c) 0

theorem charToDigit_digitChar : ∀ d : Nat, d < 10 →
    charToDigit (Nat.digitChar d) = d := by decide

theorem toDigitsCore_eq_append : ∀ (fuel n : Nat) (ds : List Char),
    Nat.toDigitsCore 10 fuel n ds = Nat.toDigitsCore 10 fuel n [] ++ ds := by
  intro fuel
  induction fuel with
  | zero => intro n ds; simp [Nat.toDigitsCore]
  | succ f ih =>
    intro n ds
    simp only [Nat.toDigitsCore]
    by_cases h : n / 10 = 0
    · simp [h]
    · rw [if_neg h, if_neg h, ih (n / 10) [Nat.digitChar (n % 10)],
        ih (n / 10) (Nat.digitChar (n % 10) :: ds), List.append_assoc]
      rfl

theorem digitsVal_concat (ds : List Char) (c : Char) :
    digitsVal (ds ++ [c]) = digitsVal ds * 10 + charToDigit c := by
  simp [digitsVal, List.foldl_append]

theorem digitsVal_toDigitsCore : ∀ (fuel n : Nat), n < fuel →
    digitsVal (Nat.toDigitsCore 10 fuel n []) = n := by
  intro fuel
  induction fuel with
  | zero => intro n h; cases h
  | succ f ih =>
    intro n hn
    simp only [Nat.toDigitsCore]
    by_cases h : n / 10 = 0
    · have hlt : n < 10 := by omega
      rw [if_pos h]
      have : digitsVal [Nat.digitChar (n % 10)] = charToDigit (Nat.digitChar (n % 10)) := by
        simp [digitsVal]
      rw [this, charToDigit_digitChar (n % 10) (Nat.mod_lt n (by norm_num)),
        Nat.mod_eq_of_lt hlt]
    · rw [if_neg h, toDigitsCore_eq_append, digitsVal_concat]
      have hpos : 0 < n := by
        rcases Nat.eq_zero_or_pos n with h0 | h0
        · subst h0; simp at h
        · exact h0
      have hdiv : n / 10 < n := Nat.div_lt_self hpos (by norm_num)
      have : n / 10 < f := Nat.lt_of_lt_of_le hdiv (Nat.lt_succ_iff.mp hn)
      rw [ih (n / 10) this,
        charToDigit_digitChar (n % 10) (Nat.mod_lt n (by norm_num))]
      omega

/-- The decimal printer used by `Nat.toString` is injective. -/
theorem natRepr_injective : Function.Injective Nat.repr := by
  intro m n h
  have hd : Nat.toDigits 10 m = Nat.toDigits 10 n := by
    have := congrArg String.data h
    simpa [Nat.repr, List.asString] using this
  have hm := digitsVal_toDigitsCore (m + 1) m (Nat.lt_succ_self m)
  have hn := digitsVal_toDigitsCore (n + 1) n (Nat.lt_succ_self n)
  unfold Nat.toDigits at hd
  rw [← hm, ← hn, hd]

theorem natToString_eq_repr (n : Nat) : toString n = Nat.repr n := rfl

/-- Each event leaves the message list unchanged, clears it, or appends a
single message whose id is the decimal print of the event clock reading or
of that reading plus one. -/
theorem stepEvent_messages_shape (cfg : Option String) (s : ChatState)
    (e : Event) :
    (stepEvent cfg s e).messages = s.messages ∨
    (stepEvent cfg s e).messages = [] ∨
    ∃ m : Message, (m.id = toString e.time ∨ m.id = toString (e.time + 1)) ∧
      (stepEvent cfg s e).messages = s.messages ++ [m] := by
  cases e with
  | typeInput now t => left; rfl
  | submit now =>
    rcases sendMessageStart_messages_eq cfg s now with h | ⟨m, hid, _, h⟩
    · left; exact h
    · right; right; exact ⟨m, Or.inl hid, h⟩
  | settle now r =>
    obtain ⟨m, hid, _, h⟩ := settleRequest_messages_eq s r now
    right; right; exact ⟨m, Or.inr hid, h⟩
  | clearClick now => right; left; rfl

/-- Invariant carrier for id distinctness: if all current ids decode to
numbers below `B`, current ids are distinct, and the coming events start
at clock `B` or later with gaps of at least 2, the ids stay distinct. -/
theorem runEvents_ids_nodup_aux (cfg : Option String) :
    ∀ (es : List Event) (s : ChatState) (B : Nat),
      (∀ m ∈ s.messages, ∃ k, k < B ∧ m.id = Nat.repr k) →
      (s.messages.map Message.id).Nodup →
      (∀ e ∈ es.head?, B ≤ e.time) →
      List.Chain' (fun a b => a.time + 2 ≤ b.time) es →
      ((runEvents cfg s es).messages.map Message.id).Nodup := by
  intro es
  induction es with
  | nil => intro s B _ hN _ _; exact hN
  | cons e rest ih =>
    intro s B hB hN hHead hChain
    have hBe : B ≤ e.time := hHead e rfl
    obtain ⟨hR, hChainRest⟩ := List.chain'_cons'.mp hChain
    show ((runEvents cfg (stepEvent cfg s e) rest).messages.map Message.id).Nodup
    apply ih (stepEvent cfg s e) (e.time + 2)
    · rcases stepEvent_messages_shape cfg s e with h | h | ⟨m, hid, h⟩
      · rw [h]
        intro m hm
        obtain ⟨k, hk, hkid⟩ := hB m hm
        exact ⟨k, by omega, hkid⟩
      · rw [h]
        intro m hm
        simp at hm
      · rw [h]
        intro m' hm'
        rcases List.mem_append.mp hm' with hmem | hmem
        · obtain ⟨k, hk, hkid⟩ := hB m' hmem
          exact ⟨k, by omega, hkid⟩
        · have hm'm : m' = m := by simpa using hmem
          subst hm'm
          rcases hid with hid | hid
          · exact ⟨e.time, by omega, by rw [hid, natToString_eq_repr]⟩
          · exact ⟨e.time + 1, by omega, by rw [hid, natToString_eq_repr]⟩
    · rcases stepEvent_messages_shape cfg s e with h | h | ⟨m, hid, h⟩
      · rw [h]; exact hN
      · rw [h]; simp
      · rw [h, List.map_append]
        refine List.nodup_append.mpr ⟨hN, by simp, ?_⟩
        intro a ha hb
        have hb' : a = m.id := by simpa using hb
        subst hb'
        obtain ⟨m', hm', hm'id⟩ := List.mem_map.mp ha
        obtain ⟨k, hk, hkid⟩ := hB m' hm'
        rcases hid with hid | hid
        · have : Nat.repr k = Nat.repr e.time := by
            rw [← hkid, hm'id, hid, natToString_eq_repr]
          have := natRepr_injective this
          omega
        · have : Nat.repr k = Nat.repr (e.time + 1) := by
            rw [← hkid, hm'id, hid, natToString_eq_repr]
          have := natRepr_injective this
          omega
    · intro e' he'
      have := hR e' he'
      omega
    · exact hChainRest

/-- C8 counterexample: a session whose events fall on consecutive
milliseconds — submit at clock 100, settlement at clock 100, next submit
at clock 101 — produces transcript ids "100", "101", "101": the second
user message receives the same id the assistant message already has. -/
theorem message_ids_collide_with_fast_clock :
    (runEvents none chatInit
      [.typeInput 99 "Hello", .submit 100,
       .settle 100 (.response 200 (.parsed (.obj [("response", .str "Hi")]))),
       .typeInput 100 "again", .submit 101]).messages.map Message.id =
      ["100", "101", "101"] ∧
    ¬ ((runEvents none chatInit
      [.typeInput 99 "Hello", .submit 100,
       .settle 100 (.response 200 (.parsed (.obj [("response", .str "Hi")]))),
       .typeInput 100 "again", .submit 101]).messages.map Message.id).Nodup :=
  ⟨by decide, by decide⟩

/-- C8 amended: message ids are pairwise distinct throughout a session
provided consecutive UI events are at least two clock milliseconds apart
(the time-based id scheme needs the clock to advance; with smaller gaps
ids can collide). -/
theorem message_ids_nodup_of_clock_gaps (cfg : Option String)
    (es : List Event)
    (hGap : List.Chain' (fun a b => a.time + 2 ≤ b.time) es) :
    ((runEvents cfg chatInit es).messages.map Message.id).Nodup :=
  runEvents_ids_nodup_aux cfg es chatInit 0
    (by intro m hm; simp [chatInit] at hm)
    (by simp [chatInit])
    (fun e _ => Nat.zero_le _)
    hGap

/-- Witness for the amended C8: a full exchange and a second submit, all
events at least 2 ms apart; the three ids are distinct. -/
theorem message_ids_nodup_of_clock_gaps_witness :
    (runEvents none chatInit
      [.typeInput 90 "Hello", .submit 100,
       .settle 102 (.response 200 (.parsed (.obj [("response", .str "Hi")]))),
       .typeInput 104 "again", .submit 106]).messages.map Message.id =
      ["100", "103", "106"] ∧
    ((runEvents none chatInit
      [.typeInput 90 "Hello", .submit 100,
       .settle 102 (.response 200 (.parsed (.obj [("response", .str "Hi")]))),
       .typeInput 104 "again", .submit 106]).messages.map Message.id).Nodup :=
  ⟨by decide,
    message_ids_nodup_of_clock_gaps none
      [.typeInput 90 "Hello", .submit 100,
       .settle 102 (.response 200 (.parsed (.obj [("response", .str "Hi")]))),
       .typeInput 104 "again", .submit 106]
      (by simp [List.chain'_cons, Event.time])⟩
